import Mathlib

/-!
Shallow embedding of the TailorJob CV-matching pipeline (v4.0):
`SkillNormalizer`, `CVComparator`, `BaseScorer`, `TransferabilityAssessor`
and `FinalScorer` from `backend/app/services/`, together with theorems
settling the specification claims about them.

Modelling conventions:
* Python `int(x)` (truncation toward zero) is `pyInt`; exact rational
  arithmetic (`ℚ`) stands for Python float arithmetic, which is exact on
  the small values involved here.
* Python substring tests (`needle in hay`) are `strContains hay needle`.
* Python dictionaries with a fixed key schema are Lean structures; `.get`
  with a default on a possibly-absent key is an `Option` field plus `getD`.
* Python sets built from lists are kept as lists; every use below is
  membership / existential, so duplicates and ordering are irrelevant.
-/

/-- Python `str.lower()` (ASCII case folding), structurally recursive over
the character list. -/
def String.lower (s : String) : String := ⟨s.data.map Char.toLower⟩

/-- Python `str.strip()`: remove leading and trailing whitespace. -/
def String.strip (s : String) : String :=
  ⟨((s.data.dropWhile Char.isWhitespace).reverse.dropWhile Char.isWhitespace).reverse⟩

namespace TailorJob

/-- Python `int(x)` on a real: truncation toward zero. -/
def pyInt (q : ℚ) : ℤ := if 0 ≤ q then ⌊q⌋ else ⌈q⌉

/-- Holds (`charsContain hay needle = true`) iff `needle` occurs as a contiguous
run inside `hay` (the Python `needle in hay` on strings, over char lists). -/
def charsContain (hay needle : List Char) : Bool :=
  match hay with
  | [] => needle.isEmpty
  | _ :: t => needle.isPrefixOf hay || charsContain t needle

/-- Python `needle in hay` for strings. -/
def strContains (hay needle : String) : Bool :=
  charsContain hay.toList needle.toList

/-! ## Data model

Typed counterparts of the dictionaries flowing through the pipeline. -/

/-- One entry of `cv_data["education"]`. -/
structure Education where
  degree : Option String
  institution : Option String
  field : Option String
deriving DecidableEq

/-- A dict carrying a `technologies` list (an `experience[]` or
`projects[]` entry); the keys irrelevant to the pipeline are elided. -/
structure TechEntry where
  technologies : List String
deriving DecidableEq

/-- The CV dictionary (normalized or not) as used by the services. -/
structure CVData where
  skills : List String
  languages : List String
  frameworks : List String
  cloud_platforms : List String
  databases : List String
  tools : List String
  years_experience_total : Nat
  education : List Education
  seniority_signals : List String
  experience : List TechEntry
  projects : List TechEntry
deriving DecidableEq

/-- Embeds `job_data["management"]`: `.get("required", False)` / `.get("team_size")`. -/
structure MgmtReq where
  required : Bool
  team_size : Option Nat
deriving DecidableEq

/-- The job dictionary in the database format (`must_have` /
`nice_to_have` are lists of requirement strings). -/
structure JobData where
  must_have : List String
  nice_to_have : List String
  role_level : Option String
  management : MgmtReq
deriving DecidableEq

/-- An element of the `matched_*` / `missing_*` lists produced by
`CVComparator._match_requirements`. -/
structure ReqMatch where
  requirement : String
  status : String
  evidence : String
  requirement_type : String
deriving DecidableEq

/-- The `experience_match` sub-result. -/
structure ExperienceMatch where
  requirement : String
  status : String
  evidence : String
  cv_years : Nat
  required_years : Nat
deriving DecidableEq

/-- The `education_match` sub-result.  (In the "no degree required"
branch the Python dict omits the `has_equivalent_education` key; we
record `false` there — no claim reads that key in that branch.) -/
structure EducationMatch where
  requirement : String
  status : String
  evidence : String
  has_formal_degree : Bool
  has_equivalent_education : Bool
  or_equivalent_allowed : Bool
deriving DecidableEq

/-- The `management_match` sub-result. -/
structure ManagementMatch where
  requirement : String
  status : String
  evidence : String
deriving DecidableEq

/-- The dictionary returned by `CVComparator.compare_requirements`. -/
structure ComparisonResult where
  matched_must_have : List ReqMatch
  missing_must_have : List ReqMatch
  matched_nice_have : List ReqMatch
  missing_nice_have : List ReqMatch
  experience_match : ExperienceMatch
  education_match : EducationMatch
  management_match : ManagementMatch
deriving DecidableEq

/-! ## CVComparator (`cv_comparator.py`) -/

/-- The degree-requirement test at the top of `_match_requirements`. -/
def isEduReq (rl : String) : Bool :=
  strContains rl "degree" || strContains rl "bachelor" || strContains rl "master"

/-- The management-requirement test in `_match_requirements`. -/
def isMgmtReq (rl : String) : Bool :=
  strContains rl "management" || strContains rl "lead"

/-- The experience-years test in `_match_requirements`. -/
def isExpReq (rl : String) : Bool :=
  strContains rl "years" &&
    (strContains rl "experience" || strContains rl "backend" || strContains rl "engineering")

/-- True when `_match_requirements` skips the requirement (deferring it to
the education / management / experience sub-comparisons). -/
def skipReq (req : String) : Bool :=
  isEduReq req.lower || isMgmtReq req.lower || isExpReq req.lower

/-- The technology test of `_match_requirements`:
`tech in req_lower or req_lower in tech`. -/
def techPred (rl tech : String) : Bool :=
  strContains rl tech || strContains tech rl

/-- How `_match_requirements` treats one requirement string, following the
branch order of the code: degree keywords, then management keywords, then
experience-years phrasing, then CV-technology containment, else a plain
(unmatched) skill. -/
inductive ReqClass where
  | qualification
  | management
  | experience
  | technology
  | skill
deriving DecidableEq

/-- Per-requirement classification implicit in `_match_requirements`
(the branch taken for `req` given the CV technology set). -/
def classifyReq (req : String) (cv_tech : List String) : ReqClass :=
  let rl := req.lower
  if isEduReq rl then .qualification
  else if isMgmtReq rl then .management
  else if isExpReq rl then .experience
  else if cv_tech.any (techPred rl) then .technology
  else .skill

/-- Embeds `CVComparator._match_requirements`: walks the requirement strings,
skipping education / management / experience ones, matching the rest
against the CV technology set, and returns `(matched, missing)`. -/
def matchRequirements (requirements : List String) (cv_tech : List String)
    (req_type : String) : List ReqMatch × List ReqMatch :=
  match requirements with
  | [] => ([], [])
  | req :: rest =>
    let (m, ms) := matchRequirements rest cv_tech req_type
    let rl := req.lower
    if isEduReq rl then (m, ms)
    else if isMgmtReq rl then (m, ms)
    else if isExpReq rl then (m, ms)
    else
      match cv_tech.find? (techPred rl) with
      | some tech =>
        (⟨req, "EXACT_MATCH", "CV lists: " ++ tech, req_type⟩ :: m, ms)
      | none =>
        (m, ⟨req, "NOT_FOUND", "Not in CV", req_type⟩ :: ms)

/-- Embeds `CVComparator._get_all_cv_tech`: union of the six technology fields
(a Python set; modelled as the concatenation, used only via membership). -/
def getAllCvTech (cv : CVData) : List String :=
  cv.skills ++ cv.languages ++ cv.frameworks ++ cv.cloud_platforms ++
    cv.databases ++ cv.tools

/-- Python whitespace class `\s` (ASCII part, as produced by `str`). -/
def isPySpace (c : Char) : Bool :=
  c = ' ' || c = '\t' || c = '\n' || c = '\x0d' || c = '\x0c' || c = '\x0b'

/-- Digit-run value. -/
def natOfDigits (ds : List Char) : Nat :=
  ds.foldl (fun acc c => acc * 10 + (c.toNat - '0'.toNat)) 0

/-- One attempt of the regex `(\d+)\+?\s*years?` at the head of `cs`:
a nonempty maximal digit run, an optional `+`, optional whitespace, then
the literal `year`.  (The greedy `\d+` never benefits from backtracking
here, since a digit is neither `+`, whitespace, nor `y`.) -/
def matchYearsAt (cs : List Char) : Option Nat :=
  let ds := cs.takeWhile Char.isDigit
  if ds.isEmpty then none
  else
    let rest := cs.dropWhile Char.isDigit
    let rest1 := match rest with
      | '+' :: t => t
      | _ => rest
    let rest2 := rest1.dropWhile isPySpace
    if ('y' :: 'e' :: 'a' :: 'r' :: []).isPrefixOf rest2 then
      some (natOfDigits ds)
    else none

/-- Embeds a search with the years regex: the leftmost match, if any. -/
def searchYears (cs : List Char) : Option Nat :=
  match cs with
  | [] => none
  | _ :: t =>
    match matchYearsAt cs with
    | some n => some n
    | none => searchYears t

/-- Embeds `CVComparator._compare_experience`: takes the largest `N years`
figure regex-extracted from the must-have strings and compares it with
the total years of the CV. -/
def compareExperience (cv : CVData) (job : JobData) : ExperienceMatch :=
  let cv_years := cv.years_experience_total
  let job_years := job.must_have.foldl
    (fun acc req =>
      match searchYears req.lower.toList with
      | some years => if years > acc then years else acc
      | none => acc) 0
  if job_years = 0 then
    ⟨"No experience requirement", "MET", "N/A", cv_years, 0⟩
  else
    ⟨toString job_years ++ "+ years experience",
     if cv_years ≥ job_years then "MET" else "NOT_MET",
     "CV: " ++ toString cv_years ++ " years, Required: " ++
       toString job_years ++ " years",
     cv_years, job_years⟩

/-- Keywords accepted by `CVComparator._has_formal_degree`. -/
def degreeKeywords : List String :=
  ["bachelor", "b.sc", "b.s.", "bsc", "ba ", "b.a.", "b.tech",
   "master", "m.sc", "m.s.", "msc", "ma ", "m.a.",
   "phd", "ph.d.", "doctorate"]

/-- Embeds `CVComparator._has_formal_degree`. -/
def hasFormalDegree (education : List Education) : Bool :=
  education.any fun edu =>
    degreeKeywords.any fun kw => strContains (edu.degree.getD "").lower kw

/-- Keywords accepted by `CVComparator._has_equivalent_education`. -/
def equivalentKeywords : List String :=
  ["associate", "a.s.", "a.a.", "diploma", "certificate", "bootcamp",
   "coding bootcamp", "professional certificate", "technical degree"]

/-- Embeds `CVComparator._has_equivalent_education`: searches the concatenation
of the lower-cased degree, institution and field of each entry. -/
def hasEquivalentEducation (education : List Education) : Bool :=
  education.any fun edu =>
    let combined := (edu.degree.getD "").lower ++ " " ++
      (edu.institution.getD "").lower ++ " " ++ (edu.field.getD "").lower
    equivalentKeywords.any fun kw => strContains combined kw

/-- The degree-requirement detector of `_compare_education` (note the
extra `phd` keyword compared with `_match_requirements`). -/
def isDegreeReqText (rl : String) : Bool :=
  strContains rl "degree" || strContains rl "bachelor" ||
    strContains rl "master" || strContains rl "phd"

/-- Embeds `CVComparator._compare_education`: keys on the FIRST must-have
requirement containing a degree keyword; `or equivalent` in that string
lets an equivalent educational credential satisfy it. -/
def compareEducation (cv : CVData) (job : JobData) : EducationMatch :=
  match job.must_have.find? (fun req => isDegreeReqText req.lower) with
  | none =>
    ⟨"No degree required", "MET", "N/A", false, false, false⟩
  | some reqText =>
    let or_equivalent := strContains reqText.lower "or equivalent"
    let has_degree := hasFormalDegree cv.education
    let has_equiv := hasEquivalentEducation cv.education
    if has_degree then
      ⟨reqText, "MET", "Has formal degree (Bachelor\x27s or higher)",
       true, has_equiv, or_equivalent⟩
    else if has_equiv && or_equivalent then
      ⟨reqText, "MET",
       "Has equivalent educational qualification (e.g., Associates, technical degree, bootcamp)",
       false, true, or_equivalent⟩
    else
      ⟨reqText, "NOT_MET",
       (if or_equivalent then
          "No formal degree or equivalent educational qualification"
        else
          "No formal degree (strict Bachelor\x27s requirement, no equivalents allowed)"),
       false, has_equiv, or_equivalent⟩

/-- Embeds `CVComparator._compare_management`. -/
def compareManagement (cv : CVData) (job : JobData) : ManagementMatch :=
  if !job.management.required then
    ⟨"No management required", "MET", "N/A"⟩
  else
    let managementKeywords :=
      ["lead", "manage", "mentor", "supervised", "directed", "team of"]
    let has_mgmt := cv.seniority_signals.any fun sig =>
      managementKeywords.any fun kw => strContains sig.lower kw
    let team_size_mention :=
      cv.seniority_signals.find? fun sig => strContains sig.lower "team of"
    let evidence :=
      if has_mgmt then
        match team_size_mention with
        | some sig => "Has management experience: " ++ sig
        | none => "Has leadership/management experience"
      else "No management or leadership signals found"
    let requirement_text :=
      match job.management.team_size with
      | some n => "Management experience (team of " ++ toString n ++ ")"
      | none => "Management experience"
    ⟨requirement_text, if has_mgmt then "MET" else "NOT_MET", evidence⟩

/-- Embeds `CVComparator.compare_requirements`: the full comparison.  (On the
database format, `_parse_requirements` keeps the string list as is; the
typed model makes its non-string filtering vacuous.) -/
def compare_requirements (cv : CVData) (job : JobData) : ComparisonResult :=
  let cv_all_tech := getAllCvTech cv
  let must := matchRequirements job.must_have cv_all_tech "must_have"
  let nice := matchRequirements job.nice_to_have cv_all_tech "nice_to_have"
  { matched_must_have := must.1
    missing_must_have := must.2
    matched_nice_have := nice.1
    missing_nice_have := nice.2
    experience_match := compareExperience cv job
    education_match := compareEducation cv job
    management_match := compareManagement cv job }

/-! ## BaseScorer (`base_scorer.py`) -/

/-- The `breakdown` dict assembled by `calculate_base_scores`. -/
structure Breakdown where
  matched_must_count : Nat
  total_must_count : Nat
  matched_nice_count : Nat
  total_nice_count : Nat
deriving DecidableEq

/-- The dict returned by `BaseScorer.calculate_base_scores`. -/
structure BaseScores where
  skills_score : ℤ
  experience_score : ℤ
  qualifications_score : ℤ
  breakdown : Breakdown
deriving DecidableEq

/-- Embeds `BaseScorer._calculate_skills_score`:
`int(must_score*0.8 + nice_score*0.2)` with each sub-score
`matched/total*100`, and `100` for an empty category. -/
def calcSkillsScore (c : ComparisonResult) : ℤ :=
  let total_must := c.matched_must_have.length + c.missing_must_have.length
  let matched_must := c.matched_must_have.length
  let total_nice := c.matched_nice_have.length + c.missing_nice_have.length
  let matched_nice := c.matched_nice_have.length
  let must_score : ℚ :=
    if total_must > 0 then (matched_must : ℚ) / total_must * 100 else 100
  let nice_score : ℚ :=
    if total_nice > 0 then (matched_nice : ℚ) / total_nice * 100 else 100
  pyInt (must_score * 0.8 + nice_score * 0.2)

/-- Embeds `BaseScorer._calculate_experience_score`. -/
def calcExperienceScore (c : ComparisonResult) (cv : CVData)
    (job : JobData) : ℤ :=
  let cv_years := c.experience_match.cv_years
  let job_years := c.experience_match.required_years
  let score : ℤ :=
    if job_years = 0 then
      if cv_years ≥ 10 then 100
      else if cv_years ≥ 5 then 90
      else if cv_years ≥ 2 then 70
      else 50
    else
      if (cv_years : ℚ) ≥ (job_years : ℚ) * 1.5 then 100
      else if cv_years ≥ job_years then 90
      else if (cv_years : ℚ) ≥ (job_years : ℚ) * 0.75 then 70
      else if (cv_years : ℚ) ≥ (job_years : ℚ) * 0.5 then 50
      else 30
  let job_level := (job.role_level.getD "").lower
  let has_senior := cv.seniority_signals.any fun sig =>
    strContains sig.lower "senior" || strContains sig.lower "lead"
  if (strContains job_level "senior" || strContains job_level "lead") &&
      has_senior then
    min 100 (score + 10)
  else score

/-- Embeds `BaseScorer._calculate_qualifications_score`. -/
def calcQualificationsScore (c : ComparisonResult) : ℤ :=
  if c.education_match.status = "MET" then 100 else 60

/-- Embeds `BaseScorer.calculate_base_scores`. -/
def calculate_base_scores (c : ComparisonResult) (cv : CVData)
    (job : JobData) : BaseScores :=
  { skills_score := calcSkillsScore c
    experience_score := calcExperienceScore c cv job
    qualifications_score := calcQualificationsScore c
    breakdown :=
      { matched_must_count := c.matched_must_have.length
        total_must_count := c.matched_must_have.length + c.missing_must_have.length
        matched_nice_count := c.matched_nice_have.length
        total_nice_count := c.matched_nice_have.length + c.missing_nice_have.length } }

/-! ## TransferabilityAssessor (`transferability_assessor.py`) -/

/-- One entry of `transferability["assessments"]` (all four keys
present, as guaranteed by `_assess_single_requirement`). -/
structure Assessment where
  requirement : String
  transferability_score : ℚ
  reasoning : String
  ramp_up_time : String
deriving DecidableEq

/-- The dict returned by `assess_missing_skills`. -/
structure Transferability where
  assessments : List Assessment
deriving DecidableEq

/-- The JSON object of a rating response that parsed, each expected key
possibly absent. -/
structure RawAssessment where
  requirement : Option String
  transferability_score : Option ℚ
  reasoning : Option String
  ramp_up_time : Option String
deriving DecidableEq

/-- Outcome of one external rating call: either the awaited request (or
`json.loads` on its malformed body) raised, or a JSON object came back. -/
inductive CallOutcome where
  | throws (msg : String)
  | ok (raw : RawAssessment)
deriving DecidableEq

/-- Embeds `TransferabilityAssessor._assess_single_requirement` for one missing
requirement, given the outcome of the call: the `except` branch builds the
zero-score fallback; otherwise each absent key is defaulted. -/
def assessSingle (missing_req : String) (outcome : CallOutcome) : Assessment :=
  match outcome with
  | .throws msg =>
    ⟨missing_req, 0, "Error: " ++ msg, "Unknown"⟩
  | .ok raw =>
    ⟨raw.requirement.getD missing_req,
     raw.transferability_score.getD 0,
     raw.reasoning.getD "No reasoning provided",
     raw.ramp_up_time.getD "Unknown"⟩

/-- Embeds `TransferabilityAssessor.assess_missing_skills` with a configured
client: one task per missing requirement, gathered in order (the
`isinstance(assessment, Exception)` arm of the gather loop is
unreachable because `_assess_single_requirement` catches everything; the
throwing path is modelled inside `assessSingle`).  `oracle i` is the
outcome of the call for the `i`-th missing requirement. -/
def assess_missing_skills (missing_requirements : List String)
    (oracle : Nat → CallOutcome) : List Assessment :=
  missing_requirements.enum.map fun p => assessSingle p.2 (oracle p.1)

/-! ## FinalScorer (`final_scorer.py`) -/

/-- The dict returned by `FinalScorer.calculate_final_scores`. -/
structure FinalScores where
  overall_score : ℤ
  skills_score : ℤ
  experience_score : ℤ
  qualifications_score : ℤ
  base_skills_score : ℤ
  transferability_details : List Assessment
  scoring_method : String
deriving DecidableEq

/-- The transferability credit summed by
`_calculate_skills_with_transferability`: scores of the assessments whose
requirement occurs among the missing must-haves. -/
def transferCredit (tr : Transferability) (c : ComparisonResult) : ℚ :=
  (tr.assessments.filter fun a =>
      (c.missing_must_have.map (·.requirement)).contains a.requirement
    ).foldl (fun acc a => acc + a.transferability_score) 0

/-- Embeds `FinalScorer._calculate_skills_with_transferability`. -/
def calcSkillsWithTransferability (base : BaseScores)
    (tr : Transferability) (c : ComparisonResult) : ℤ :=
  let total_must := base.breakdown.total_must_count
  let exact_must := base.breakdown.matched_must_count
  if total_must = 0 then 100
  else
    let transferable_credit := transferCredit tr c
    let must_score_with_transfer : ℚ :=
      ((exact_must : ℚ) + transferable_credit) / total_must * 100
    let total_nice := base.breakdown.total_nice_count
    let exact_nice := base.breakdown.matched_nice_count
    let nice_score : ℚ :=
      if total_nice > 0 then (exact_nice : ℚ) / total_nice * 100 else 100
    let final_skills := must_score_with_transfer * 0.8 + nice_score * 0.2
    min 100 (pyInt final_skills)

/-- Embeds `FinalScorer.calculate_final_scores`. -/
def calculate_final_scores (base : BaseScores) (tr : Transferability)
    (c : ComparisonResult) : FinalScores :=
  let skills_score := calcSkillsWithTransferability base tr c
  let experience_score := base.experience_score
  let qualifications_score := base.qualifications_score
  let overall_score := pyInt
    ((skills_score : ℚ) * 0.5 + (experience_score : ℚ) * 0.35 +
      (qualifications_score : ℚ) * 0.15)
  { overall_score := overall_score
    skills_score := skills_score
    experience_score := experience_score
    qualifications_score := qualifications_score
    base_skills_score := base.skills_score
    transferability_details := tr.assessments
    scoring_method := "v4.0 (base + transferability)" }

/-! ## SkillNormalizer (`skill_normalizer.py`) -/

/-- Embeds `SkillNormalizer.SKILL_MAPPINGS` (keys are pairwise distinct in the
source, so first-hit association-list lookup equals dict lookup). -/
def SKILL_MAPPINGS : List (String × String) :=
  [("golang", "go"), ("go lang", "go"), ("javascript", "js"),
   ("typescript", "ts"), ("node.js", "nodejs"), ("node", "nodejs"),
   ("python3", "python"), ("python 3", "python"), ("c++", "cpp"),
   ("c#", "csharp"), (".net", "dotnet"),
   ("react.js", "react"), ("reactjs", "react"), ("react js", "react"),
   ("angular.js", "angular"), ("angularjs", "angular"),
   ("angular js", "angular"), ("vue.js", "vue"), ("vuejs", "vue"),
   ("vue js", "vue"), ("next.js", "nextjs"), ("nextjs", "nextjs"),
   ("django", "django"), ("flask", "flask"), ("fastapi", "fastapi"),
   ("express.js", "express"), ("expressjs", "express"),
   ("spring boot", "spring"), ("springboot", "spring"),
   ("aws", "amazon web services"),
   ("amazon web services", "amazon web services"),
   ("gcp", "google cloud"), ("google cloud platform", "google cloud"),
   ("google cloud", "google cloud"), ("azure", "azure"),
   ("azure cloud services", "azure"), ("microsoft azure", "azure"),
   ("postgres", "postgresql"), ("postgresql", "postgresql"),
   ("mongo", "mongodb"), ("mongodb", "mongodb"), ("mysql", "mysql"),
   ("mssql", "sql server"), ("sql server", "sql server"),
   ("microsoft sql server", "sql server"), ("redis", "redis"),
   ("dynamodb", "dynamodb"), ("cosmosdb", "cosmosdb"),
   ("git", "git"), ("github", "github"), ("gitlab", "gitlab"),
   ("docker", "docker"), ("k8s", "kubernetes"),
   ("kubernetes", "kubernetes"), ("jenkins", "jenkins"),
   ("circleci", "circleci"), ("github actions", "github actions"),
   ("gitlab ci", "gitlab ci"), ("terraform", "terraform"),
   ("ansible", "ansible"),
   ("spark", "apache spark"), ("apache spark", "apache spark"),
   ("presto", "presto"), ("trino", "trino"), ("athena", "aws athena"),
   ("aws athena", "aws athena"), ("drill", "apache drill"),
   ("apache drill", "apache drill"), ("hadoop", "hadoop"),
   ("kafka", "apache kafka"), ("apache kafka", "apache kafka")]

/-- Embeds `SkillNormalizer.normalize_skill`: lower-case, strip, then look up
the canonical name (identity on unmapped tokens). -/
def normalize_skill (skill : String) : String :=
  if skill = "" then skill
  else
    let skill_lower := skill.lower.strip
    match SKILL_MAPPINGS.find? (fun p => p.1 = skill_lower) with
    | some p => p.2
    | none => skill_lower

/-- Embeds `SkillNormalizer.normalize_cv_data`, with the Python heap aliasing made
explicit.  The source does `normalized = cv_data.copy()` — a SHALLOW
copy — then rebinds the six top-level technology lists to fresh lists in
the copy (leaving the originals untouched), but normalizes
`experience[].technologies` and `projects[].technologies` by assigning
into the entry dicts, which the copy SHARES with `cv_data`.  The result
is the pair `(returned value, state of the input object after the
call)`. -/
def normalize_cv_data (cv_data : CVData) : CVData × CVData :=
  let newExperience : List TechEntry :=
    cv_data.experience.map fun exp =>
      ⟨exp.technologies.map normalize_skill⟩
  let newProjects : List TechEntry :=
    cv_data.projects.map fun proj =>
      ⟨proj.technologies.map normalize_skill⟩
  let normalized : CVData :=
    { cv_data with
        skills := cv_data.skills.map normalize_skill
        languages := cv_data.languages.map normalize_skill
        frameworks := cv_data.frameworks.map normalize_skill
        cloud_platforms := cv_data.cloud_platforms.map normalize_skill
        databases := cv_data.databases.map normalize_skill
        tools := cv_data.tools.map normalize_skill
        experience := newExperience
        projects := newProjects }
  let inputAfter : CVData :=
    { cv_data with experience := newExperience, projects := newProjects }
  (normalized, inputAfter)

/-! ## Helper lemmas -/

theorem pyInt_of_nonneg {q : ℚ} (h : 0 ≤ q) : pyInt q = ⌊q⌋ :=
  if_pos h

theorem pyInt_nonneg {q : ℚ} (h : 0 ≤ q) : 0 ≤ pyInt q := by
  rw [pyInt_of_nonneg h]
  exact Int.floor_nonneg.mpr h

theorem pyInt_le_of_le {q : ℚ} {n : ℤ} (h : q ≤ n) : pyInt q ≤ n := by
  unfold pyInt
  split
  · exact (Int.floor_mono h).trans_eq (Int.floor_intCast n)
  · exact Int.ceil_le.mpr h

theorem pyInt_mono {q q' : ℚ} (h : q ≤ q') : pyInt q ≤ pyInt q' := by
  unfold pyInt
  split
  · rw [if_pos (le_trans (by assumption) h)]
    exact Int.floor_mono h
  · split
    · calc ⌈q⌉ ≤ 0 := Int.ceil_le.mpr (by exact_mod_cast le_of_not_le (by assumption))
        _ ≤ ⌊q'⌋ := Int.floor_nonneg.mpr (by assumption)
    · exact Int.ceil_mono h

theorem foldl_add_eq_sum_map (f : Assessment → ℚ) :
    ∀ (l : List Assessment) (x : ℚ),
      l.foldl (fun acc a => acc + f a) x = x + (l.map f).sum := by
  intro l
  induction l with
  | nil => simp
  | cons a t ih =>
    intro x
    simp only [List.foldl_cons, List.map_cons, List.sum_cons, ih (x + f a)]
    ring

theorem transferCredit_eq_sum (tr : Transferability) (c : ComparisonResult) :
    transferCredit tr c =
      ((tr.assessments.filter fun a =>
          (c.missing_must_have.map (·.requirement)).contains a.requirement
        ).map (·.transferability_score)).sum := by
  unfold transferCredit
  rw [foldl_add_eq_sum_map, zero_add]

theorem transferCredit_nonneg (tr : Transferability) (c : ComparisonResult)
    (h : ∀ a ∈ tr.assessments, 0 ≤ a.transferability_score) :
    0 ≤ transferCredit tr c := by
  rw [transferCredit_eq_sum]
  apply List.sum_nonneg
  intro x hx
  obtain ⟨a, ha, rfl⟩ := List.mem_map.mp hx
  exact h a (List.mem_filter.mp ha).1

theorem calcExperienceScore_bounds (c : ComparisonResult) (cv : CVData)
    (job : JobData) :
    0 ≤ calcExperienceScore c cv job ∧ calcExperienceScore c cv job ≤ 100 := by
  unfold calcExperienceScore
  dsimp only
  split_ifs <;> constructor <;> omega

theorem calcQualificationsScore_bounds (c : ComparisonResult) :
    0 ≤ calcQualificationsScore c ∧ calcQualificationsScore c ≤ 100 := by
  unfold calcQualificationsScore
  split_ifs <;> omega

theorem calcSkillsWithTransferability_bounds (base : BaseScores)
    (tr : Transferability) (c : ComparisonResult)
    (hcr : 0 ≤ transferCredit tr c) :
    0 ≤ calcSkillsWithTransferability base tr c ∧
      calcSkillsWithTransferability base tr c ≤ 100 := by
  unfold calcSkillsWithTransferability
  dsimp only
  split
  · norm_num
  · constructor
    · refine le_min (by norm_num) (pyInt_nonneg ?_)
      have h1 : (0 : ℚ) ≤
          ((base.breakdown.matched_must_count : ℚ) + transferCredit tr c) /
            (base.breakdown.total_must_count : ℚ) * 100 := by
        apply mul_nonneg _ (by norm_num)
        exact div_nonneg (add_nonneg (Nat.cast_nonneg _) hcr) (Nat.cast_nonneg _)
      have h2 : (0 : ℚ) ≤
          (if base.breakdown.total_nice_count > 0 then
            (base.breakdown.matched_nice_count : ℚ) /
              (base.breakdown.total_nice_count : ℚ) * 100
          else 100) := by
        split
        · exact mul_nonneg (div_nonneg (Nat.cast_nonneg _) (Nat.cast_nonneg _))
            (by norm_num)
        · norm_num
      nlinarith
    · exact min_le_left _ _

theorem calcSkillsWithTransferability_eq (base : BaseScores)
    (tr : Transferability) (c : ComparisonResult)
    (h : base.breakdown.total_must_count ≠ 0) :
    calcSkillsWithTransferability base tr c =
      min 100 (pyInt
        (((base.breakdown.matched_must_count : ℚ) + transferCredit tr c) /
            (base.breakdown.total_must_count : ℚ) * 100 * 0.8 +
          (if base.breakdown.total_nice_count > 0 then
            (base.breakdown.matched_nice_count : ℚ) /
              (base.breakdown.total_nice_count : ℚ) * 100
          else 100) * 0.2)) := by
  unfold calcSkillsWithTransferability
  rw [if_neg h]

/-! ## Concrete inputs used by witnesses and counterexamples -/

def cvEmpty : CVData := ⟨[], [], [], [], [], [], 0, [], [], [], []⟩

def jobKube : JobData := ⟨["kubernetes"], [], none, ⟨false, none⟩⟩

def cKube : ComparisonResult := compare_requirements cvEmpty jobKube

def trNeg : Transferability := ⟨[⟨"kubernetes", -5, "r", "u"⟩]⟩

def trGood : Transferability := ⟨[⟨"kubernetes", 0.7, "adjacent framework", "2-4 weeks"⟩]⟩

/-! ## C1 — range invariant of the final scores -/

/-- C1 (counterexample): with a malformed, unclamped
`transferability_score` of `-5` for the one missing must-have,
`FinalScorer.calculate_final_scores` returns `skills_score = -380` and
`overall_score = -157`, so the four scores do NOT all lie in `[0, 100]`:
the cap `min(100, ...)` bounds the skills score only from above. -/
theorem C1_range_cex :
    (calculate_final_scores (calculate_base_scores cKube cvEmpty jobKube)
        trNeg cKube).skills_score = -380 ∧
    (calculate_final_scores (calculate_base_scores cKube cvEmpty jobKube)
        trNeg cKube).overall_score = -157 ∧
    ¬ (0 ≤ (calculate_final_scores (calculate_base_scores cKube cvEmpty jobKube)
        trNeg cKube).skills_score) := by
  have hmiss : cKube.missing_must_have =
      [⟨"kubernetes", "NOT_FOUND", "Not in CV", "must_have"⟩] := by decide
  have hbrk : (calculate_base_scores cKube cvEmpty jobKube).breakdown =
      ⟨0, 1, 0, 0⟩ := by decide
  have hcr : transferCredit trNeg cKube = -5 := by
    rw [transferCredit_eq_sum, hmiss]
    norm_num [trNeg, List.filter]
  have hsk : (calculate_final_scores (calculate_base_scores cKube cvEmpty jobKube)
      trNeg cKube).skills_score = -380 := by
    show calcSkillsWithTransferability (calculate_base_scores cKube cvEmpty jobKube)
      trNeg cKube = -380
    rw [calcSkillsWithTransferability_eq _ _ _ (by rw [hbrk]; exact one_ne_zero),
      hbrk, hcr]
    norm_num [pyInt]
    rw [show ((-380 : ℚ)) = ((-380 : ℤ) : ℚ) by norm_num, Int.ceil_intCast]
    decide
  have hexp : (calculate_final_scores (calculate_base_scores cKube cvEmpty jobKube)
      trNeg cKube).experience_score = 50 := by
    show calcExperienceScore cKube cvEmpty jobKube = 50
    decide
  have hq : (calculate_final_scores (calculate_base_scores cKube cvEmpty jobKube)
      trNeg cKube).qualifications_score = 100 := by
    show calcQualificationsScore cKube = 100
    decide
  have hov : (calculate_final_scores (calculate_base_scores cKube cvEmpty jobKube)
      trNeg cKube).overall_score = -157 := by
    have hdef : (calculate_final_scores (calculate_base_scores cKube cvEmpty jobKube)
        trNeg cKube).overall_score = pyInt
          (((calculate_final_scores (calculate_base_scores cKube cvEmpty jobKube)
              trNeg cKube).skills_score : ℚ) * 0.5 +
            ((calculate_final_scores (calculate_base_scores cKube cvEmpty jobKube)
              trNeg cKube).experience_score : ℚ) * 0.35 +
            ((calculate_final_scores (calculate_base_scores cKube cvEmpty jobKube)
              trNeg cKube).qualifications_score : ℚ) * 0.15) := rfl
    rw [hdef, hsk, hexp, hq]
    norm_num [pyInt]
    rw [Int.ceil_neg]
    norm_num
  refine ⟨hsk, hov, ?_⟩
  rw [hsk]
  decide

/-- C1 (amended): for every comparison result, CV and job data, and every
transferability input whose scores are all nonnegative (in particular the
documented `[0, 1]` range), the four scores returned by
`FinalScorer.calculate_final_scores` — `overall_score`, `skills_score`,
`experience_score`, `qualifications_score` — each lie in `[0, 100]`.
Without the nonnegativity hypothesis the claim is false (`C1_range_cex`). -/
theorem C1_range_amended (c : ComparisonResult) (cv : CVData) (job : JobData)
    (tr : Transferability)
    (h : ∀ a ∈ tr.assessments, 0 ≤ a.transferability_score) :
    let F := calculate_final_scores (calculate_base_scores c cv job) tr c
    (0 ≤ F.overall_score ∧ F.overall_score ≤ 100) ∧
    (0 ≤ F.skills_score ∧ F.skills_score ≤ 100) ∧
    (0 ≤ F.experience_score ∧ F.experience_score ≤ 100) ∧
    (0 ≤ F.qualifications_score ∧ F.qualifications_score ≤ 100) := by
  intro F
  have hcr := transferCredit_nonneg tr c h
  have hs := calcSkillsWithTransferability_bounds
    (calculate_base_scores c cv job) tr c hcr
  have he := calcExperienceScore_bounds c cv job
  have hq := calcQualificationsScore_bounds c
  have hFs : F.skills_score =
      calcSkillsWithTransferability (calculate_base_scores c cv job) tr c := rfl
  have hFe : F.experience_score = calcExperienceScore c cv job := rfl
  have hFq : F.qualifications_score = calcQualificationsScore c := rfl
  refine ⟨?_, ⟨hFs ▸ hs.1, hFs ▸ hs.2⟩, ⟨hFe ▸ he.1, hFe ▸ he.2⟩,
    ⟨hFq ▸ hq.1, hFq ▸ hq.2⟩⟩
  have hO : F.overall_score = pyInt ((F.skills_score : ℚ) * 0.5 +
      (F.experience_score : ℚ) * 0.35 + (F.qualifications_score : ℚ) * 0.15) := rfl
  have hs0 : (0 : ℚ) ≤ (F.skills_score : ℚ) := by
    exact_mod_cast hFs ▸ hs.1
  have hs1 : (F.skills_score : ℚ) ≤ 100 := by exact_mod_cast hFs ▸ hs.2
  have he0 : (0 : ℚ) ≤ (F.experience_score : ℚ) := by exact_mod_cast hFe ▸ he.1
  have he1 : (F.experience_score : ℚ) ≤ 100 := by exact_mod_cast hFe ▸ he.2
  have hq0 : (0 : ℚ) ≤ (F.qualifications_score : ℚ) := by
    exact_mod_cast hFq ▸ hq.1
  have hq1 : (F.qualifications_score : ℚ) ≤ 100 := by exact_mod_cast hFq ▸ hq.2
  constructor
  · rw [hO]
    apply pyInt_nonneg
    nlinarith
  · rw [hO]
    have : (F.skills_score : ℚ) * 0.5 + (F.experience_score : ℚ) * 0.35 +
        (F.qualifications_score : ℚ) * 0.15 ≤ ((100 : ℤ) : ℚ) := by
      push_cast
      nlinarith
    exact pyInt_le_of_le this

/-- C1 (witness): the amended range theorem applied at a concrete input
with one missing must-have and a well-formed `0.7` transferability
score. -/
theorem C1_range_witness :
    (∀ a ∈ trGood.assessments, 0 ≤ a.transferability_score) ∧
    (let F := calculate_final_scores (calculate_base_scores cKube cvEmpty jobKube)
        trGood cKube
     (0 ≤ F.overall_score ∧ F.overall_score ≤ 100) ∧
     (0 ≤ F.skills_score ∧ F.skills_score ≤ 100) ∧
     (0 ≤ F.experience_score ∧ F.experience_score ≤ 100) ∧
     (0 ≤ F.qualifications_score ∧ F.qualifications_score ≤ 100)) :=
  have h : ∀ a ∈ trGood.assessments, 0 ≤ a.transferability_score := by
    intro a ha
    rw [trGood, List.mem_singleton] at ha
    subst ha
    norm_num
  ⟨h, C1_range_amended cKube cvEmpty jobKube trGood h⟩

/-! ## C2 — must-have requirements partition into matched/missing -/

theorem matchRequirements_count (reqs cv_tech : List String) (rt s : String) :
    ((matchRequirements reqs cv_tech rt).1.map (·.requirement)).count s +
      ((matchRequirements reqs cv_tech rt).2.map (·.requirement)).count s =
      if skipReq s = true then 0 else reqs.count s := by
  induction reqs with
  | nil => simp [matchRequirements]
  | cons req rest ih =>
    rcases hrec : matchRequirements rest cv_tech rt with ⟨m, ms⟩
    rw [hrec] at ih
    dsimp only at ih
    by_cases hsk : skipReq req = true
    · have hres : matchRequirements (req :: rest) cv_tech rt = (m, ms) := by
        simp only [skipReq, Bool.or_eq_true] at hsk
        rcases hsk with (h1 | h2) | h3
        · simp [matchRequirements, hrec, h1]
        · by_cases h1 : isEduReq req.lower <;>
            simp [matchRequirements, hrec, h1, h2]
        · by_cases h1 : isEduReq req.lower <;>
            by_cases h2 : isMgmtReq req.lower <;>
            simp [matchRequirements, hrec, h1, h2, h3]
      rw [hres]
      by_cases hss : skipReq s = true
      · rw [if_pos hss] at ih ⊢
        exact ih
      · rw [if_neg hss] at ih ⊢
        have hne : req ≠ s := fun h => hss (h ▸ hsk)
        rw [List.count_cons_of_ne (fun h => hne h.symm)]
        exact ih
    · have hsk3 : isEduReq req.lower = false ∧ isMgmtReq req.lower = false ∧
          isExpReq req.lower = false := by
        simp only [skipReq, Bool.or_eq_true] at hsk
        push_neg at hsk
        exact ⟨Bool.eq_false_iff.mpr hsk.1.1, Bool.eq_false_iff.mpr hsk.1.2,
          Bool.eq_false_iff.mpr hsk.2⟩
      rcases hfind : cv_tech.find? (techPred req.lower) with _ | tech
      · have hres : matchRequirements (req :: rest) cv_tech rt =
            (m, ⟨req, "NOT_FOUND", "Not in CV", rt⟩ :: ms) := by
          simp [matchRequirements, hrec, hsk3.1, hsk3.2.1, hsk3.2.2, hfind]
        rw [hres]
        simp only [List.map_cons, List.count_cons]
        by_cases hrs : s = req
        · subst hrs
          rw [if_neg (fun h => hsk h)] at ih ⊢
          simp only [beq_self_eq_true, if_pos]
          omega
        · simp only [beq_iff_eq, if_neg (fun h : req = s => hrs h.symm), add_zero]
          exact ih
      · have hres : matchRequirements (req :: rest) cv_tech rt =
            (⟨req, "EXACT_MATCH", "CV lists: " ++ tech, rt⟩ :: m, ms) := by
          simp [matchRequirements, hrec, hsk3.1, hsk3.2.1, hsk3.2.2, hfind]
        rw [hres]
        simp only [List.map_cons, List.count_cons]
        by_cases hrs : s = req
        · subst hrs
          rw [if_neg (fun h => hsk h)] at ih ⊢
          simp only [beq_self_eq_true, if_pos]
          omega
        · simp only [beq_iff_eq, if_neg (fun h : req = s => hrs h.symm), add_zero]
          exact ih

def jobEdu : JobData := ⟨["bachelor degree"], [], none, ⟨false, none⟩⟩

/-- C2 (counterexample): the must-have requirement `"bachelor degree"`
appears in NEITHER `matched_must_have` nor `missing_must_have` —
`_match_requirements` silently drops every requirement containing a
degree / management / experience keyword, so the claim as stated (every
must-have in exactly one of the two lists) fails. -/
theorem C2_partition_cex :
    "bachelor degree" ∈ jobEdu.must_have ∧
    "bachelor degree" ∉
      ((compare_requirements cvEmpty jobEdu).matched_must_have.map (·.requirement)) ∧
    "bachelor degree" ∉
      ((compare_requirements cvEmpty jobEdu).missing_must_have.map (·.requirement)) := by
  decide

/-- C2 (amended): a must-have (resp. nice-to-have) requirement that is
NOT deferred by the education / management / experience keyword tests
appears in the `matched` and `missing` lists of
`CVComparator.compare_requirements` with total multiplicity equal to its
multiplicity in the input (in particular, a requirement listed once
appears in exactly one of the two lists); a deferred requirement appears
in neither list (it is handled by the dedicated sub-comparisons
instead). -/
theorem C2_partition_amended (cv : CVData) (job : JobData) (req : String) :
    let c := compare_requirements cv job
    (skipReq req = true →
      req ∉ c.matched_must_have.map (·.requirement) ∧
      req ∉ c.missing_must_have.map (·.requirement) ∧
      req ∉ c.matched_nice_have.map (·.requirement) ∧
      req ∉ c.missing_nice_have.map (·.requirement)) ∧
    (skipReq req = false →
      (c.matched_must_have.map (·.requirement)).count req +
        (c.missing_must_have.map (·.requirement)).count req =
        job.must_have.count req ∧
      (c.matched_nice_have.map (·.requirement)).count req +
        (c.missing_nice_have.map (·.requirement)).count req =
        job.nice_to_have.count req) := by
  intro c
  have hm := matchRequirements_count job.must_have (getAllCvTech cv) "must_have" req
  have hn := matchRequirements_count job.nice_to_have (getAllCvTech cv) "nice_to_have" req
  have e1 : c.matched_must_have =
      (matchRequirements job.must_have (getAllCvTech cv) "must_have").1 := rfl
  have e2 : c.missing_must_have =
      (matchRequirements job.must_have (getAllCvTech cv) "must_have").2 := rfl
  have e3 : c.matched_nice_have =
      (matchRequirements job.nice_to_have (getAllCvTech cv) "nice_to_have").1 := rfl
  have e4 : c.missing_nice_have =
      (matchRequirements job.nice_to_have (getAllCvTech cv) "nice_to_have").2 := rfl
  rw [e1, e2, e3, e4]
  constructor
  · intro hskip
    rw [if_pos hskip] at hm hn
    exact ⟨List.count_eq_zero.mp (by omega),
      List.count_eq_zero.mp (by omega),
      List.count_eq_zero.mp (by omega),
      List.count_eq_zero.mp (by omega)⟩
  · intro hskip
    rw [if_neg (by simp [hskip])] at hm hn
    exact ⟨hm, hn⟩

/-- C2 (witness): the amended partition theorem applied to the plain
skill requirement `"kubernetes"` (not matched by the empty CV, so it
lands in the missing list exactly once). -/
theorem C2_partition_witness :
    skipReq "kubernetes" = false ∧
    (((compare_requirements cvEmpty jobKube).matched_must_have.map (·.requirement)).count "kubernetes" +
      ((compare_requirements cvEmpty jobKube).missing_must_have.map (·.requirement)).count "kubernetes" =
      jobKube.must_have.count "kubernetes" ∧
    ((compare_requirements cvEmpty jobKube).matched_nice_have.map (·.requirement)).count "kubernetes" +
      ((compare_requirements cvEmpty jobKube).missing_nice_have.map (·.requirement)).count "kubernetes" =
      jobKube.nice_to_have.count "kubernetes") :=
  ⟨by decide, (C2_partition_amended cvEmpty jobKube "kubernetes").2 (by decide)⟩

/-! ## C3 — classification priority of requirement strings -/

theorem matchRequirements_classify (reqs cv_tech : List String) (rt : String) :
    ((matchRequirements reqs cv_tech rt).1.map (·.requirement) =
      reqs.filter (fun r => classifyReq r cv_tech == .technology)) ∧
    ((matchRequirements reqs cv_tech rt).2.map (·.requirement) =
      reqs.filter (fun r => classifyReq r cv_tech == .skill)) := by
  induction reqs with
  | nil => simp [matchRequirements]
  | cons req rest ih =>
    rcases hrec : matchRequirements rest cv_tech rt with ⟨m, ms⟩
    rw [hrec] at ih
    dsimp only at ih
    by_cases h1 : isEduReq req.lower
    · have hcl : classifyReq req cv_tech = .qualification := by
        simp [classifyReq, h1]
      constructor <;>
        simp [matchRequirements, hrec, h1, List.filter_cons, hcl, ih.1, ih.2]
    · by_cases h2 : isMgmtReq req.lower
      · have hcl : classifyReq req cv_tech = .management := by
          simp [classifyReq, h1, h2]
        constructor <;>
          simp [matchRequirements, hrec, h1, h2, List.filter_cons, hcl, ih.1, ih.2]
      · by_cases h3 : isExpReq req.lower
        · have hcl : classifyReq req cv_tech = .experience := by
            simp [classifyReq, h1, h2, h3]
          constructor <;>
            simp [matchRequirements, hrec, h1, h2, h3, List.filter_cons, hcl,
              ih.1, ih.2]
        · rcases hfind : cv_tech.find? (techPred req.lower) with _ | tech
          · have hany : cv_tech.any (techPred req.lower) = false := by
              simp only [List.find?_eq_none] at hfind
              simpa [List.any_eq_true] using hfind
            have hcl : classifyReq req cv_tech = .skill := by
              simp [classifyReq, h1, h2, h3, hany]
            constructor <;>
              simp [matchRequirements, hrec, h1, h2, h3, hfind, List.filter_cons,
                hcl, ih.1, ih.2]
          · have hany : cv_tech.any (techPred req.lower) = true :=
              List.any_eq_true.mpr
                ⟨tech, List.mem_of_find?_eq_some hfind, List.find?_some hfind⟩
            have hcl : classifyReq req cv_tech = .technology := by
              simp [classifyReq, h1, h2, h3, hany]
            constructor <;>
              simp [matchRequirements, hrec, h1, h2, h3, hfind, List.filter_cons,
                hcl, ih.1, ih.2]

def cvPy : CVData := ⟨["python"], [], [], [], [], [], 0, [], [], [], []⟩

def jobPy : JobData :=
  ⟨["5+ years backend engineering with Python"], [], none, ⟨false, none⟩⟩

/-- C3 (counterexample): the requirement
`"5+ years backend engineering with Python"` contains a named technology
present in the CV (`python`), yet `_match_requirements` classifies it as
an EXPERIENCE requirement (the experience-years test fires before the
technology test), so it lands in neither `matched_must_have` nor
`missing_must_have` — refuting the claimed priority
technology > experience-years. -/
theorem C3_priority_cex :
    ((getAllCvTech cvPy).any
      (techPred "5+ years backend engineering with Python".lower)) = true ∧
    classifyReq "5+ years backend engineering with Python" (getAllCvTech cvPy) =
      .experience ∧
    classifyReq "5+ years backend engineering with Python" (getAllCvTech cvPy) ≠
      .technology ∧
    (compare_requirements cvPy jobPy).matched_must_have = [] ∧
    (compare_requirements cvPy jobPy).missing_must_have = [] := by
  decide

/-- C3 (amended): `_match_requirements` classifies each requirement
string by keyword heuristics in the priority order qualification
keywords > management keywords > generic experience-years phrasing >
named technology tokens > default skill; in particular a requirement
containing both a named CV technology and experience-years phrasing is
classified as an experience requirement, NOT a technology one.
Classification is a function of the requirement string and the CV
technology set alone — the matched (resp. missing) list is exactly the
filter of the technology-classified (resp. skill-classified)
requirements, so classification never depends on string length or on the
position of the requirement in the list. -/
theorem C3_priority_amended (req : String) (cv_tech reqs : List String)
    (rt : String) :
    (isEduReq req.lower = true → classifyReq req cv_tech = .qualification) ∧
    (isEduReq req.lower = false → isMgmtReq req.lower = true →
      classifyReq req cv_tech = .management) ∧
    (isEduReq req.lower = false → isMgmtReq req.lower = false →
      isExpReq req.lower = true → classifyReq req cv_tech = .experience) ∧
    (isEduReq req.lower = false → isMgmtReq req.lower = false →
      isExpReq req.lower = false → cv_tech.any (techPred req.lower) = true →
      classifyReq req cv_tech = .technology) ∧
    (isEduReq req.lower = false → isMgmtReq req.lower = false →
      isExpReq req.lower = false → cv_tech.any (techPred req.lower) = false →
      classifyReq req cv_tech = .skill) ∧
    ((matchRequirements reqs cv_tech rt).1.map (·.requirement) =
      reqs.filter (fun r => classifyReq r cv_tech == .technology)) ∧
    ((matchRequirements reqs cv_tech rt).2.map (·.requirement) =
      reqs.filter (fun r => classifyReq r cv_tech == .skill)) := by
  refine ⟨?_, ?_, ?_, ?_, ?_,
    (matchRequirements_classify reqs cv_tech rt).1,
    (matchRequirements_classify reqs cv_tech rt).2⟩
  all_goals intros
  all_goals simp_all [classifyReq]

/-- C3 (witness): the priority theorem applied to the plain technology
requirement `"python"` against a CV listing `python`. -/
theorem C3_priority_witness :
    (isEduReq "python".lower = false ∧ isMgmtReq "python".lower = false ∧
      isExpReq "python".lower = false ∧
      (["python"].any (techPred "python".lower)) = true ∧
      classifyReq "python" ["python"] = .technology) ∧
    ((matchRequirements ["python"] ["python"] "must_have").1.map (·.requirement) =
      ["python"].filter (fun r => classifyReq r ["python"] == .technology)) := by
  refine ⟨⟨by decide, by decide, by decide, by decide, ?_⟩, ?_⟩
  · exact (C3_priority_amended "python" ["python"] ["python"] "must_have").2.2.2.1
      (by decide) (by decide) (by decide) (by decide)
  · exact (C3_priority_amended "python" ["python"] ["python"] "must_have").2.2.2.2.2.1

/-! ## C4 — education strictness -/

def cvBoot : CVData :=
  ⟨[], [], [], [], [], [], 15, [⟨some "bootcamp certificate", none, none⟩],
   [], [], []⟩

def jobTwoDegrees : JobData :=
  ⟨["bachelor degree or equivalent", "master degree"], [], none, ⟨false, none⟩⟩

/-- C4 (counterexample): the must-have list of the job CONTAINS a degree
requirement with no "or equivalent" clause (`"master degree"`), and the
CV has no formal degree — yet `education_match.status = "MET"`, because
`_compare_education` keys on the FIRST degree requirement found
(`"bachelor degree or equivalent"`), which the bootcamp certificate of the CV
satisfies.  The claim as stated quantifies over ANY degree requirement
in the list and is therefore refuted. -/
theorem C4_education_cex :
    hasFormalDegree cvBoot.education = false ∧
    "master degree" ∈ jobTwoDegrees.must_have ∧
    isDegreeReqText "master degree".lower = true ∧
    strContains "master degree".lower "or equivalent" = false ∧
    (compare_requirements cvBoot jobTwoDegrees).education_match.status = "MET" := by
  decide

/-- C4 (amended): for a CV with no formal-degree keyword, the education
verdict is decided by the FIRST must-have requirement containing a
degree keyword: if that requirement lacks an "or equivalent" clause the
status is `NOT_MET` (any equivalent credential and any amount of work
experience notwithstanding), and in general the status is `MET` exactly
when the CV holds an equivalent educational credential AND that first
requirement contains "or equivalent"; the education verdict never
depends on `years_experience_total`. -/
theorem C4_education_amended (cv : CVData) (job : JobData) (r : String)
    (hfind : job.must_have.find? (fun req => isDegreeReqText req.lower) = some r)
    (hnof : hasFormalDegree cv.education = false) :
    (((compare_requirements cv job).education_match.status = "MET") ↔
      (hasEquivalentEducation cv.education = true ∧
        strContains r.lower "or equivalent" = true)) ∧
    (strContains r.lower "or equivalent" = false →
      (compare_requirements cv job).education_match.status = "NOT_MET") ∧
    (∀ y : Nat,
      (compare_requirements { cv with years_experience_total := y }
          job).education_match =
        (compare_requirements cv job).education_match) := by
  refine ⟨?_, ?_, fun y => rfl⟩
  · by_cases he : hasEquivalentEducation cv.education <;>
      by_cases ho : strContains r.lower "or equivalent" <;>
      simp [compare_requirements, compareEducation, hfind, hnof, he, ho]
  · intro ho
    by_cases he : hasEquivalentEducation cv.education <;>
      simp [compare_requirements, compareEducation, hfind, hnof, he, ho]

/-- C4 (witness): the amended education theorem applied to the job
`["bachelor degree"]` (strict, no "or equivalent") and the CV holding
only a bootcamp certificate: the verdict is `NOT_MET`. -/
theorem C4_education_witness :
    (jobEdu.must_have.find? (fun req => isDegreeReqText req.lower) =
      some "bachelor degree") ∧
    hasFormalDegree cvBoot.education = false ∧
    ((((compare_requirements cvBoot jobEdu).education_match.status = "MET") ↔
      (hasEquivalentEducation cvBoot.education = true ∧
        strContains "bachelor degree".lower "or equivalent" = true)) ∧
    (strContains "bachelor degree".lower "or equivalent" = false →
      (compare_requirements cvBoot jobEdu).education_match.status = "NOT_MET") ∧
    (∀ y : Nat,
      (compare_requirements { cvBoot with years_experience_total := y }
          jobEdu).education_match =
        (compare_requirements cvBoot jobEdu).education_match)) :=
  ⟨by decide, by decide,
    C4_education_amended cvBoot jobEdu "bachelor degree" (by decide) (by decide)⟩

/-! ## C5 — experience sub-match -/

/-- Specification-side formulation: the maximum `N years` figure the
regex search finds across the must-have strings (0 when none). -/
def maxYearsSpec (reqs : List String) : Nat :=
  (reqs.map (fun r => (searchYears r.lower.toList).getD 0)).foldr max 0

theorem yearsLoop_eq (l : List String) :
    ∀ a : Nat, l.foldl (fun acc req =>
      match searchYears req.lower.toList with
      | some years => if years > acc then years else acc
      | none => acc) a = max a (maxYearsSpec l) := by
  induction l with
  | nil => intro a; simp [maxYearsSpec]
  | cons r t ih =>
    intro a
    rw [List.foldl_cons, ih]
    have hstep : (match searchYears r.lower.toList with
        | some years => if years > a then years else a
        | none => a) = max a ((searchYears r.lower.toList).getD 0) := by
      rcases searchYears r.lower.toList with _ | y
      · simp
      · simp only [Option.getD_some]
        rw [Nat.max_def]
        split_ifs <;> omega
    rw [hstep, show maxYearsSpec (r :: t) =
        max ((searchYears r.lower.toList).getD 0) (maxYearsSpec t) from by
      simp [maxYearsSpec], Nat.max_assoc]

/-- C5: the experience sub-match takes `required_years` to be the
largest digit-prefixed `N years` figure the regex finds in the must-have
strings, records the total years of the CV, and reports `MET` exactly when
`years_experience_total ≥ required_years` (trivially `MET` when no
years pattern occurs). -/
theorem C5_experience (cv : CVData) (job : JobData) :
    let em := (compare_requirements cv job).experience_match
    em.required_years = maxYearsSpec job.must_have ∧
    em.cv_years = cv.years_experience_total ∧
    (em.status = "MET" ↔ cv.years_experience_total ≥ maxYearsSpec job.must_have) ∧
    (maxYearsSpec job.must_have = 0 → em.status = "MET") := by
  intro em
  have hem : em = compareExperience cv job := rfl
  rw [hem]
  unfold compareExperience
  rw [yearsLoop_eq, Nat.zero_max]
  by_cases h0 : maxYearsSpec job.must_have = 0
  · simp [h0]
  · by_cases hge : cv.years_experience_total ≥ maxYearsSpec job.must_have <;>
      simp [h0, hge]

def trEmpty : Transferability := ⟨[]⟩

/-- C5 (witness): the experience theorem applied to a job with no years
pattern in its must-haves — `required_years = 0` and the status is
`MET`. -/
theorem C5_experience_witness :
    maxYearsSpec jobKube.must_have = 0 ∧
    (compare_requirements cvEmpty jobKube).experience_match.status = "MET" :=
  ⟨by decide, (C5_experience cvEmpty jobKube).2.2.2 (by decide)⟩

/-! ## C6 — base skills score formula and no-requirement invariant -/

def cAllEmpty : ComparisonResult :=
  ⟨[], [], [], [], ⟨"No experience requirement", "MET", "N/A", 0, 0⟩,
   ⟨"No degree required", "MET", "N/A", false, false, false⟩,
   ⟨"No management required", "MET", "N/A"⟩⟩

/-- C6: `BaseScorer._calculate_skills_score` returns
`int(must_score*0.8 + nice_score*0.2)` with each sub-score equal to
`matched/total*100` and equal to `100` for an empty category; in
particular, with no must-have and no nice-to-have requirements both the
base skills score and the final (transferability-adjusted) skills score
are exactly 100. -/
theorem C6_skills_formula (c : ComparisonResult) (cv : CVData) (job : JobData)
    (tr : Transferability) :
    (calculate_base_scores c cv job).skills_score =
      pyInt ((if c.matched_must_have.length + c.missing_must_have.length = 0
          then (100 : ℚ)
          else (c.matched_must_have.length : ℚ) /
            ((c.matched_must_have.length + c.missing_must_have.length : ℕ) : ℚ) *
            100) * 0.8 +
        (if c.matched_nice_have.length + c.missing_nice_have.length = 0
          then (100 : ℚ)
          else (c.matched_nice_have.length : ℚ) /
            ((c.matched_nice_have.length + c.missing_nice_have.length : ℕ) : ℚ) *
            100) * 0.2) ∧
    (c.matched_must_have = [] → c.missing_must_have = [] →
      c.matched_nice_have = [] → c.missing_nice_have = [] →
      (calculate_base_scores c cv job).skills_score = 100 ∧
      (calculate_final_scores (calculate_base_scores c cv job) tr c).skills_score
        = 100) := by
  constructor
  · show calcSkillsScore c = _
    unfold calcSkillsScore
    dsimp only
    congr 1
    have e : ∀ (n m : ℕ) (X : ℚ),
        (if n + m > 0 then X else 100) = (if n + m = 0 then 100 else X) := by
      intro n m X
      rcases Nat.eq_zero_or_pos (n + m) with h | h
      · simp [h]
      · rw [if_pos h, if_neg (Nat.pos_iff_ne_zero.mp h)]
    rw [e, e]
  · intro e1 e2 e3 e4
    constructor
    · show calcSkillsScore c = 100
      unfold calcSkillsScore
      simp only [e1, e2, e3, e4, List.length_nil]
      norm_num [pyInt]
    · show calcSkillsWithTransferability (calculate_base_scores c cv job) tr c
        = 100
      unfold calcSkillsWithTransferability
      rw [if_pos]
      show (calculate_base_scores c cv job).breakdown.total_must_count = 0
      simp [calculate_base_scores, e1, e2]

/-- C6 (witness): with an all-empty comparison both skills scores are
100. -/
theorem C6_skills_witness :
    (calculate_base_scores cAllEmpty cvEmpty jobKube).skills_score = 100 ∧
    (calculate_final_scores (calculate_base_scores cAllEmpty cvEmpty jobKube)
      trEmpty cAllEmpty).skills_score = 100 :=
  (C6_skills_formula cAllEmpty cvEmpty jobKube trEmpty).2 rfl rfl rfl rfl

/-! ## C7 — final scorer formula -/

/-- C7: for every base-score, transferability and comparison input,
`FinalScorer` computes the skills score as
`(exact_must + Σ transferability over missing must-haves)/total_must*100`,
weighted 80% against the nice-to-have exact-match score at 20% and
capped at 100 (`int` truncation as in the code); the experience and
qualifications scores pass through from the base scores unchanged; and
`overall_score = int(skills*0.5 + experience*0.35 + qualifications*0.15)`. -/
theorem C7_final_formula (base : BaseScores) (tr : Transferability)
    (c : ComparisonResult) :
    let F := calculate_final_scores base tr c
    (base.breakdown.total_must_count ≠ 0 →
      F.skills_score = min 100 (pyInt
        (((base.breakdown.matched_must_count : ℚ) +
            ((tr.assessments.filter fun a =>
              (c.missing_must_have.map (·.requirement)).contains a.requirement).map
              (·.transferability_score)).sum) /
          (base.breakdown.total_must_count : ℚ) * 100 * 0.8 +
          (if base.breakdown.total_nice_count = 0 then (100 : ℚ)
           else (base.breakdown.matched_nice_count : ℚ) /
             (base.breakdown.total_nice_count : ℚ) * 100) * 0.2))) ∧
    F.experience_score = base.experience_score ∧
    F.qualifications_score = base.qualifications_score ∧
    F.overall_score = pyInt ((F.skills_score : ℚ) * 0.5 +
      (F.experience_score : ℚ) * 0.35 + (F.qualifications_score : ℚ) * 0.15) := by
  intro F
  refine ⟨?_, rfl, rfl, rfl⟩
  intro h
  show calcSkillsWithTransferability base tr c = _
  rw [calcSkillsWithTransferability_eq base tr c h, transferCredit_eq_sum]
  by_cases hn : base.breakdown.total_nice_count = 0 <;>
    simp [hn, Nat.pos_iff_ne_zero]

/-- C7 (witness): the final-formula theorem applied at a concrete input
with one missing must-have and no transferability assessments. -/
theorem C7_final_witness :
    ((calculate_base_scores cKube cvEmpty jobKube).breakdown.total_must_count ≠ 0) ∧
    (calculate_final_scores (calculate_base_scores cKube cvEmpty jobKube)
        trEmpty cKube).skills_score = min 100 (pyInt
      ((((calculate_base_scores cKube cvEmpty jobKube).breakdown.matched_must_count : ℚ) +
          ((trEmpty.assessments.filter fun a =>
            (cKube.missing_must_have.map (·.requirement)).contains a.requirement).map
            (·.transferability_score)).sum) /
        ((calculate_base_scores cKube cvEmpty jobKube).breakdown.total_must_count : ℚ) *
        100 * 0.8 +
        (if (calculate_base_scores cKube cvEmpty jobKube).breakdown.total_nice_count = 0
          then (100 : ℚ)
          else ((calculate_base_scores cKube cvEmpty jobKube).breakdown.matched_nice_count : ℚ) /
            ((calculate_base_scores cKube cvEmpty jobKube).breakdown.total_nice_count : ℚ) *
            100) * 0.2)) :=
  ⟨by decide,
    (C7_final_formula (calculate_base_scores cKube cvEmpty jobKube) trEmpty cKube).1
      (by decide)⟩

/-! ## C8 — transferability fan-out isolation -/

/-- C8: `assess_missing_skills` returns exactly one assessment per
missing requirement, in order; a call that throws (or whose malformed
body makes `json.loads` throw — the same `except` path) yields the
zero-score fallback with a non-empty reasoning for THAT requirement
only; a successful call with a complete JSON object is returned exactly
as received; and the entry at a position depends only on that
call outcome at that position, so one failure never affects the rest of the
batch or aborts it. -/
theorem C8_fanout (missing : List String) (oracle : Nat → CallOutcome) :
    let out := assess_missing_skills missing oracle
    out.length = missing.length ∧
    (∀ i req msg, missing[i]? = some req → oracle i = .throws msg →
      out[i]? = some ⟨req, 0, "Error: " ++ msg, "Unknown"⟩ ∧
      ("Error: " ++ msg) ≠ "") ∧
    (∀ i req rq sc rs rt, missing[i]? = some req →
      oracle i = .ok ⟨some rq, some sc, some rs, some rt⟩ →
      out[i]? = some ⟨rq, sc, rs, rt⟩) ∧
    (∀ i (oracle2 : Nat → CallOutcome), oracle i = oracle2 i →
      out[i]? = (assess_missing_skills missing oracle2)[i]?) := by
  intro out
  have hget : ∀ (og : Nat → CallOutcome) (i : Nat),
      (assess_missing_skills missing og)[i]? =
        (missing[i]?).map (fun req => assessSingle req (og i)) := by
    intro og i
    unfold assess_missing_skills
    rw [List.getElem?_map, List.getElem?_enum]
    rcases missing[i]? with _ | req <;> simp
  have hout : out = assess_missing_skills missing oracle := rfl
  refine ⟨?_, ?_, ?_, ?_⟩
  · rw [hout]
    unfold assess_missing_skills
    simp [List.enum_length]
  · intro i req msg hm ho
    refine ⟨?_, ?_⟩
    · rw [hout, hget, hm, ho]
      rfl
    · intro hcon
      have := congrArg String.length hcon
      simp [String.length_append] at this
      exact absurd this.1 (by decide)
  · intro i req rq sc rs rt hm ho
    rw [hout, hget, hm, ho]
    rfl
  · intro i oracle2 hoo
    rw [hout, hget, hget, hoo]

/-- Oracle for the C8 witness: the second call throws, the others return
complete, well-formed assessments. -/
def orMix : Nat → CallOutcome := fun i =>
  if i = 1 then .throws "boom"
  else .ok ⟨some "react", some 0.8, some "adjacent framework", some "2-4 weeks"⟩

/-- C8 (witness): a 3-element batch whose middle call throws — exactly 3
entries come back, the failed one is the zero-score fallback with
non-empty reasoning, and a neighbouring successful entry is exactly the
response of that call. -/
theorem C8_fanout_witness :
    (["react", "kafka", "terraform"][1]? = some "kafka") ∧
    orMix 1 = .throws "boom" ∧
    ((assess_missing_skills ["react", "kafka", "terraform"] orMix)[1]? =
      some ⟨"kafka", 0, "Error: " ++ "boom", "Unknown"⟩ ∧
      ("Error: " ++ "boom") ≠ "") ∧
    ((assess_missing_skills ["react", "kafka", "terraform"] orMix)[0]? =
      some ⟨"react", 0.8, "adjacent framework", "2-4 weeks"⟩) ∧
    (assess_missing_skills ["react", "kafka", "terraform"] orMix).length = 3 :=
  ⟨rfl, rfl,
    (C8_fanout ["react", "kafka", "terraform"] orMix).2.1 1 "kafka" "boom" rfl rfl,
    (C8_fanout ["react", "kafka", "terraform"] orMix).2.2.1 0 "react" "react" 0.8
      "adjacent framework" "2-4 weeks" rfl rfl,
    (C8_fanout ["react", "kafka", "terraform"] orMix).1⟩

/-! ## C9 — monotonicity in matched must-haves -/

def cNoMust : ComparisonResult :=
  ⟨[], [], [], [⟨"reporting dashboards", "NOT_FOUND", "Not in CV", "nice_to_have"⟩],
   ⟨"No experience requirement", "MET", "N/A", 0, 0⟩,
   ⟨"No degree required", "MET", "N/A", false, false, false⟩,
   ⟨"No management required", "MET", "N/A"⟩⟩

def cOneMust : ComparisonResult :=
  { cNoMust with
      matched_must_have := [⟨"python", "EXACT_MATCH", "CV lists: python", "must_have"⟩] }

/-- C9 (counterexample): adding one more MATCHED must-have (everything
else fixed, no transferability involved) DECREASES the FinalScorer skills
score from 100 to 80: with zero must-haves `_calculate_skills_with_transferability`
returns 100 outright, ignoring the unmatched nice-to-have, but with one
matched must-have the 80/20 weighting re-exposes the nice-to-have score
of 0. -/
theorem C9_monotonic_cex :
    cOneMust = { cNoMust with
      matched_must_have :=
        (⟨"python", "EXACT_MATCH", "CV lists: python", "must_have"⟩ : ReqMatch) ::
          cNoMust.matched_must_have } ∧
    (calculate_final_scores (calculate_base_scores cOneMust cvEmpty jobKube)
        trEmpty cOneMust).skills_score <
      (calculate_final_scores (calculate_base_scores cNoMust cvEmpty jobKube)
        trEmpty cNoMust).skills_score := by
  refine ⟨rfl, ?_⟩
  have h1 : (calculate_final_scores (calculate_base_scores cNoMust cvEmpty jobKube)
      trEmpty cNoMust).skills_score = 100 := by
    show calcSkillsWithTransferability (calculate_base_scores cNoMust cvEmpty jobKube)
      trEmpty cNoMust = 100
    unfold calcSkillsWithTransferability
    rw [if_pos]
    decide
  have h2 : (calculate_final_scores (calculate_base_scores cOneMust cvEmpty jobKube)
      trEmpty cOneMust).skills_score = 80 := by
    show calcSkillsWithTransferability (calculate_base_scores cOneMust cvEmpty jobKube)
      trEmpty cOneMust = 80
    rw [calcSkillsWithTransferability_eq _ _ _ (by decide)]
    have hbrk : (calculate_base_scores cOneMust cvEmpty jobKube).breakdown =
        ⟨1, 1, 0, 1⟩ := by decide
    have hcr : transferCredit trEmpty cOneMust = 0 := rfl
    rw [hbrk, hcr]
    norm_num [pyInt]
  rw [h1, h2]
  decide

/-- C9 (amended): adding one more matched must-have requirement (missing
list, nice-to-have lists and transferability assessments fixed) never
decreases the `BaseScorer` skills score; it never decreases the `FinalScorer`
transferability-adjusted skills score PROVIDED (i) at least one must-have
requirement was already present and (ii) the exact matches plus the
transferability credit do not exceed the total must-have count (which
holds whenever each missing must-have carries at most one assessment
with a score in the documented `[0, 1]` range).  Without (i) the claim
fails (`C9_monotonic_cex`); without (ii) it fails for unclamped
transferability scores. -/
theorem C9_monotonic_amended (c : ComparisonResult) (entry : ReqMatch)
    (cv : CVData) (job : JobData) (tr : Transferability) :
    let c2 := { c with matched_must_have := entry :: c.matched_must_have }
    (calcSkillsScore c ≤ calcSkillsScore c2) ∧
    (c.matched_must_have.length + c.missing_must_have.length ≠ 0 →
      (c.matched_must_have.length : ℚ) + transferCredit tr c ≤
        ((c.matched_must_have.length + c.missing_must_have.length : ℕ) : ℚ) →
      (calculate_final_scores (calculate_base_scores c cv job) tr c).skills_score ≤
        (calculate_final_scores (calculate_base_scores c2 cv job) tr c2).skills_score) := by
  intro c2
  have hm2 : c2.matched_must_have.length = c.matched_must_have.length + 1 := rfl
  have hk2 : c2.missing_must_have = c.missing_must_have := rfl
  have hcr2 : transferCredit tr c2 = transferCredit tr c := rfl
  constructor
  · unfold calcSkillsScore
    dsimp only
    apply pyInt_mono
    have hnice : c2.matched_nice_have = c.matched_nice_have := rfl
    have hnice2 : c2.missing_nice_have = c.missing_nice_have := rfl
    rw [hm2, hk2, hnice, hnice2]
    have hmust : (if c.matched_must_have.length + c.missing_must_have.length > 0
          then (c.matched_must_have.length : ℚ) /
            ((c.matched_must_have.length + c.missing_must_have.length : ℕ) : ℚ) * 100
          else 100) ≤
        (if c.matched_must_have.length + 1 + c.missing_must_have.length > 0
          then ((c.matched_must_have.length + 1 : ℕ) : ℚ) /
            ((c.matched_must_have.length + 1 + c.missing_must_have.length : ℕ) : ℚ) * 100
          else 100) := by
      set m := c.matched_must_have.length
      set k := c.missing_must_have.length
      rcases Nat.eq_zero_or_pos (m + k) with h0 | h0
      · have hm0 : m = 0 := by omega
        have hk0 : k = 0 := by omega
        rw [if_neg (by omega), if_pos (by omega), hm0, hk0]
        norm_num
      · rw [if_pos h0, if_pos (by omega)]
        have hd1 : (0 : ℚ) < ((m + k : ℕ) : ℚ) := by
          exact_mod_cast h0
        have hd2 : (0 : ℚ) < ((m + 1 + k : ℕ) : ℚ) := by
          exact_mod_cast Nat.lt_of_lt_of_le h0 (by omega)
        rw [div_mul_eq_mul_div, div_mul_eq_mul_div, div_le_div_iff hd1 hd2]
        push_cast
        nlinarith [Nat.cast_nonneg (α := ℚ) m, Nat.cast_nonneg (α := ℚ) k]
    nlinarith [hmust]
  · intro h0 hcred
    show calcSkillsWithTransferability (calculate_base_scores c cv job) tr c ≤
      calcSkillsWithTransferability (calculate_base_scores c2 cv job) tr c2
    have hb1 : (calculate_base_scores c cv job).breakdown =
        ⟨c.matched_must_have.length,
         c.matched_must_have.length + c.missing_must_have.length,
         c.matched_nice_have.length,
         c.matched_nice_have.length + c.missing_nice_have.length⟩ := rfl
    have hb2 : (calculate_base_scores c2 cv job).breakdown =
        ⟨c.matched_must_have.length + 1,
         c.matched_must_have.length + 1 + c.missing_must_have.length,
         c.matched_nice_have.length,
         c.matched_nice_have.length + c.missing_nice_have.length⟩ := rfl
    rw [calcSkillsWithTransferability_eq _ _ _ (by rw [hb1]; exact h0),
      calcSkillsWithTransferability_eq _ _ _ (by rw [hb2]; dsimp only; omega),
      hb1, hb2, hcr2]
    dsimp only
    apply min_le_min le_rfl
    apply pyInt_mono
    set m := c.matched_must_have.length
    set k := c.missing_must_have.length
    set cr := transferCredit tr c
    have hd1 : (0 : ℚ) < ((m + k : ℕ) : ℚ) := by
      exact_mod_cast Nat.pos_of_ne_zero h0
    have hd2 : (0 : ℚ) < ((m + 1 + k : ℕ) : ℚ) := by
      have : 0 < m + 1 + k := by omega
      exact_mod_cast this
    have hdiv : ((m : ℚ) + cr) / ((m + k : ℕ) : ℚ) ≤
        (((m + 1 : ℕ) : ℚ) + cr) / ((m + 1 + k : ℕ) : ℚ) := by
      rw [div_le_div_iff hd1 hd2]
      push_cast
      push_cast at hcred
      nlinarith [hcred]
    nlinarith [hdiv]

/-- C9 (witness): the amended monotonicity theorem applied at a
comparison with one missing must-have and no transferability
assessments. -/
theorem C9_monotonic_witness :
    (cKube.matched_must_have.length + cKube.missing_must_have.length ≠ 0) ∧
    ((cKube.matched_must_have.length : ℚ) + transferCredit trEmpty cKube ≤
      ((cKube.matched_must_have.length + cKube.missing_must_have.length : ℕ) : ℚ)) ∧
    ((calculate_final_scores (calculate_base_scores cKube cvEmpty jobKube)
        trEmpty cKube).skills_score ≤
      (calculate_final_scores
        (calculate_base_scores
          { cKube with matched_must_have :=
              (⟨"python", "EXACT_MATCH", "CV lists: python", "must_have"⟩ : ReqMatch) ::
                cKube.matched_must_have } cvEmpty jobKube) trEmpty
        { cKube with matched_must_have :=
            (⟨"python", "EXACT_MATCH", "CV lists: python", "must_have"⟩ : ReqMatch) ::
              cKube.matched_must_have }).skills_score) := by
  refine ⟨by decide, ?_, ?_⟩
  · have : transferCredit trEmpty cKube = 0 := rfl
    rw [this]
    norm_num
  · exact (C9_monotonic_amended cKube
      ⟨"python", "EXACT_MATCH", "CV lists: python", "must_have"⟩ cvEmpty jobKube
      trEmpty).2 (by decide)
      (by rw [show transferCredit trEmpty cKube = 0 from rfl]; norm_num)

/-! ## C10 — normalize_cv_data mutates its input -/

def cvReact : CVData :=
  ⟨[], [], [], [], [], [], 0, [], [], [⟨["React.js"]⟩], []⟩

/-- C10 (code bug, failing input): `SkillNormalizer.normalize_cv_data`
starts from a SHALLOW `cv_data.copy()`, so assigning the normalized
`technologies` list into each shared `experience[]` entry mutates the
CV object of the caller: for the input with
`experience = [{technologies: ["React.js"]}]` the input object after the
call differs from the original — its nested technologies list has become
`["react"]` — while the six top-level technology lists are indeed
rebound only in the copy and stay untouched on the input. -/
theorem C10_normalize_mutation :
    (normalize_cv_data cvReact).2 ≠ cvReact ∧
    (normalize_cv_data cvReact).2.experience = [⟨["react"]⟩] ∧
    cvReact.experience = [⟨["React.js"]⟩] ∧
    (normalize_cv_data cvReact).1.experience = [⟨["react"]⟩] ∧
    (normalize_cv_data cvReact).2.skills = cvReact.skills := by
  decide

end TailorJob
